import Mathlib

/-!
Verification of the sampled sources of the `iced` GUI toolkit repository:
`src/core/src/border.rs` (borders and corner radii), the example
application `src/examples/chinese_fonts/src/main.rs` (its state, update
and view functions), and the retained-tree runtime described by the spec
(declared in `src/runtime/src/lib.rs`; its module bodies are not among
the sampled files, so reconciliation and focus handling are modelled
from the spec's words).

Modelling conventions:
  * `f32` values are carried as rationals (`ℚ`).  The sampled code never
    performs float arithmetic; the only lossy operation is the Rust cast
    `i32 as f32`, modelled exactly below as IEEE-754 binary32 rounding
    to nearest, ties to even (`i32AsF32`).  `u8`/`u16` to `f32` widening
    is exact because both fit in the 24-bit significand.
  * `u8` and `u16` are `Fin 256` / `Fin 65536`; `i32` is `ℤ` with range
    hypotheses where they matter.
-/

namespace Iced

/-- Floor of the base-2 logarithm, computed with explicit fuel so that
it reduces by kernel evaluation; agrees with `Nat.log2 n` whenever
`n < 2 ^ fuel`. -/
def log2Fuel : ℕ → ℕ → ℕ
  | 0, _ => 0
  | fuel + 1, n => if 2 ≤ n then log2Fuel fuel (n / 2) + 1 else 0

/-- Round a natural number below `2 ^ 32` to the nearest IEEE-754
binary32 value, ties to even.  Every such natural rounds to a natural
(the binary32 grid spacing at magnitude `2 ^ (23 + e)` is `2 ^ e`), so
the result is again a natural.  This models the value produced by
Rust's `as f32` cast for nonnegative `i32` inputs. -/
def f32RoundNat (a : ℕ) : ℕ :=
  if a ≤ 2 ^ 24 then a
  else
    let e := log2Fuel 32 a - 23
    let q := a / 2 ^ e
    let r := a % 2 ^ e
    let half := 2 ^ (e - 1)
    let q2 := if r < half then q else if half < r then q + 1
      else if q % 2 = 0 then q else q + 1
    q2 * 2 ^ e

/-- Rust `w as f32` on an `i32`, as an integer-valued result (every
`i32` magnitude is below `2 ^ 31`, so the rounded value is integral and
no overflow to infinity can occur). -/
def i32AsF32 (w : ℤ) : ℤ :=
  if w < 0 then -((f32RoundNat w.natAbs : ℕ) : ℤ)
  else ((f32RoundNat w.natAbs : ℕ) : ℤ)

/-- Rust `f32::from(w)` for `w : u8`: exact widening. -/
def f32FromU8 (w : Fin 256) : ℚ := (w.val : ℚ)

/-- Rust `f32::from(w)` for `w : u16`: exact widening. -/
def f32FromU16 (w : Fin 65536) : ℚ := (w.val : ℚ)

/-- Rust `w as f32` for `w : i32`, as a rational. -/
def f32FromI32 (w : ℤ) : ℚ := ((i32AsF32 w : ℤ) : ℚ)

/-- Modelled from the spec: `crate::Color` (referenced by
`src/core/src/border.rs` but defined outside the sampled sources) — an
RGBA color value type with components stored as `f32`. -/
structure Color where
  r : ℚ
  g : ℚ
  b : ℚ
  a : ℚ
deriving DecidableEq

/-- Modelled from the spec: `Color::from_rgb` builds an opaque color. -/
def Color.from_rgb (r g b : ℚ) : Color := ⟨r, g, b, 1⟩

/-- Modelled from the spec: the default `Color` (opaque black).  Only
its existence matters to the claims below, never its component values. -/
def Color.default : Color := ⟨0, 0, 0, 1⟩

/-- Modelled from the spec: `crate::Pixels` (referenced by
`src/core/src/border.rs`), a newtype over an `f32` amount of pixels. -/
structure Pixels where
  v : ℚ
deriving DecidableEq

/-- The border radii for the corners of a graphics primitive in the
order: top-left, top-right, bottom-right, bottom-left
(`src/core/src/border.rs`, `pub struct Radius([f32; 4])`). -/
structure Radius where
  topLeft : ℚ
  topRight : ℚ
  bottomRight : ℚ
  bottomLeft : ℚ
deriving DecidableEq

/-- `impl From<f32> for Radius`: `Self([w; 4])`. -/
def Radius.fromF32 (w : ℚ) : Radius := ⟨w, w, w, w⟩

/-- `impl From<u8> for Radius`: `Self::from(f32::from(w))`. -/
def Radius.fromU8 (w : Fin 256) : Radius := Radius.fromF32 (f32FromU8 w)

/-- `impl From<u16> for Radius`: `Self::from(f32::from(w))`. -/
def Radius.fromU16 (w : Fin 65536) : Radius := Radius.fromF32 (f32FromU16 w)

/-- `impl From<i32> for Radius`: `Self::from(w as f32)`. -/
def Radius.fromI32 (w : ℤ) : Radius := Radius.fromF32 (f32FromI32 w)

/-- `impl From<[f32; 4]> for Radius`: `Self(radi)`.  The array is
carried as an ordered quadruple. -/
def Radius.fromArray (radi : ℚ × ℚ × ℚ × ℚ) : Radius :=
  ⟨radi.1, radi.2.1, radi.2.2.1, radi.2.2.2⟩

/-- `impl From<Radius> for [f32; 4]`: `radi.0`. -/
def Radius.toArray (radi : Radius) : ℚ × ℚ × ℚ × ℚ :=
  (radi.topLeft, radi.topRight, radi.bottomRight, radi.bottomLeft)

/-- `#[derive(Default)]` on `Radius`: `[0.0; 4]`. -/
def Radius.default : Radius := ⟨0, 0, 0, 0⟩

/-- Rust `impl Into<Radius>` dispatch (`impl Into<Radius>` arguments of
`Border::rounded` and `Border::with_radius`). -/
class IntoRadius (α : Type) where
  intoRadius : α → Radius

instance : IntoRadius ℚ := ⟨Radius.fromF32⟩

instance : IntoRadius (Fin 256) := ⟨Radius.fromU8⟩

instance : IntoRadius (Fin 65536) := ⟨Radius.fromU16⟩

instance : IntoRadius ℤ := ⟨Radius.fromI32⟩

instance : IntoRadius Radius := ⟨id⟩

instance : IntoRadius (ℚ × ℚ × ℚ × ℚ) := ⟨Radius.fromArray⟩

/-- Rust `impl Into<Color>` dispatch. -/
class IntoColor (α : Type) where
  intoColor : α → Color

instance : IntoColor Color := ⟨id⟩

/-- Rust `impl Into<Pixels>` dispatch. -/
class IntoPixels (α : Type) where
  intoPixels : α → Pixels

instance : IntoPixels ℚ := ⟨Pixels.mk⟩

instance : IntoPixels Pixels := ⟨id⟩

/-- A border (`src/core/src/border.rs`, `pub struct Border`). -/
structure Border where
  color : Color
  width : ℚ
  radius : Radius
deriving DecidableEq

/-- `#[derive(Default)]` on `Border`: field-wise defaults
(`Color::default()`, `0.0`, `Radius::default()`). -/
def Border.default : Border := ⟨Color.default, 0, Radius.default⟩

/-- `Border::with_color`: updates the color, keeping the rest of
`self`. -/
def Border.with_color {α : Type} [IntoColor α] (self : Border) (color : α) :
    Border :=
  { self with color := IntoColor.intoColor color }

/-- `Border::with_radius`: updates the radius, keeping the rest of
`self`. -/
def Border.with_radius {α : Type} [IntoRadius α] (self : Border) (radius : α) :
    Border :=
  { self with radius := IntoRadius.intoRadius radius }

/-- `Border::with_width`: updates the width to the pixel amount of the
argument, keeping the rest of `self`. -/
def Border.with_width {α : Type} [IntoPixels α] (self : Border) (width : α) :
    Border :=
  { self with width := (IntoPixels.intoPixels width).v }

/-- `Border::rounded`: `Self::default().with_radius(radius)`. -/
def Border.rounded {α : Type} [IntoRadius α] (radius : α) : Border :=
  Border.default.with_radius radius

/-- Modelled from the spec: `iced::Font` (external to the sampled
sources) — `Font::DEFAULT` or a font selected by family name with
`Font::with_name`. -/
inductive Font where
  | default
  | withName (name : String)
deriving DecidableEq

/-- Modelled from the spec: `iced::Length` size constraints (fill,
fixed, shrink; spec section 4.3 layout pass). -/
inductive Length where
  | fill
  | fixed (amount : ℚ)
  | shrink
deriving DecidableEq

/-- `iced::Fill`, re-exported as imported by the example. -/
def Fill : Length := Length.fill

/-- Modelled from the spec: horizontal alignment of a column's
children; the example only uses `Center`.  `stop` stands for the
end-side alignment (its Rust name is a Lean keyword). -/
inductive Alignment where
  | start
  | center
  | stop
deriving DecidableEq

/-- `iced::Center`, re-exported as imported by the example. -/
def Center : Alignment := Alignment.center

/-- Modelled from the spec: `iced::Padding` (top, right, bottom,
left). -/
structure Padding where
  top : ℚ
  right : ℚ
  bottom : ℚ
  left : ℚ
deriving DecidableEq

/-- Rust `Padding::from(p : u16/f32)`: the same padding on all sides. -/
def Padding.uniform (v : ℚ) : Padding := ⟨v, v, v, v⟩

/-- Rust `Padding::from([vertical, horizontal])`. -/
def Padding.symmetric (vertical horizontal : ℚ) : Padding :=
  ⟨vertical, horizontal, vertical, horizontal⟩

/-- No padding. -/
def Padding.zero : Padding := Padding.uniform 0

/-- Rust `impl Into<Padding>` dispatch: a scalar or a
`[vertical, horizontal]` pair. -/
class IntoPadding (α : Type) where
  intoPadding : α → Padding

instance : IntoPadding ℚ := ⟨Padding.uniform⟩

instance : IntoPadding (ℚ × ℚ) := ⟨fun p => Padding.symmetric p.1 p.2⟩

instance : IntoPadding Padding := ⟨id⟩

/-- Rust `impl Into<Length>` dispatch: a length or a fixed amount. -/
class IntoLength (α : Type) where
  intoLength : α → Length

instance : IntoLength Length := ⟨id⟩

instance : IntoLength ℚ := ⟨Length.fixed⟩

/-- Modelled from the spec: `iced::Background`; the example only uses
solid colors. -/
inductive Background where
  | color (c : Color)
deriving DecidableEq

/-- Modelled from the spec: `iced::widget::container::Style` — the
fields the example sets (`background`, `border`); the remaining fields
it leaves at `..Default::default()` are omitted. -/
structure ContainerStyle where
  background : Option Background
  border : Border
deriving DecidableEq

/-- `container::Style::default()`. -/
def ContainerStyle.default : ContainerStyle := ⟨none, Border.default⟩

instance : IntoColor (ℚ × ℚ × ℚ) :=
  ⟨fun c => Color.from_rgb c.1 c.2.1 c.2.2⟩

/-- The demo's sections (`enum Section`,
`src/examples/chinese_fonts/src/main.rs`). -/
inductive Section where
  | basicText
  | mixedLanguage
  | fontSizes
  | textShaping
  | realWorldExample
  | interactiveTest
deriving DecidableEq

/-- `#[default]` marks `Section::BasicText`. -/
def Section.default : Section := .basicText

/-- Application state (`struct ChineseFontDemo`). -/
structure ChineseFontDemo where
  current_section : Section
  input_text : String
deriving DecidableEq

/-- `#[derive(Default)]` on `ChineseFontDemo`: field-wise defaults. -/
def ChineseFontDemo.default : ChineseFontDemo := ⟨Section.default, ""⟩

/-- Application messages (`enum Message`). -/
inductive Message where
  | sectionSelected (s : Section)
  | inputChanged (t : String)
deriving DecidableEq

/-- Asynchronous work requested from `update` (`iced::Task`), opaque to
the runtime (spec section 4.4); the sampled code only ever builds
`Task::none()`, modelled as the single constructor. -/
inductive Task (M : Type) where
  | none
deriving DecidableEq

/-- Modelled from the spec: the declarative widget tree built by `view`
(spec sections 2 and 3: one node per widget kind, ordered children,
style and appearance parameters, size constraints).  One constructor
per widget kind the example uses; attribute values live in the
constructor fields and the chainable builder methods below update
them. -/
inductive Element (M : Type) where
  | text (content : String) (font : Font) (size : ℚ) (color : Option Color)
  | button (content : Element M) (padding : Padding) (on_press : Option M)
  | text_input (placeholder : String) (value : String) (font : Font)
      (size : ℚ) (padding : Padding) (on_input : Option (String → M))
  | column (children : List (Element M)) (spacing : ℚ) (padding : Padding)
      (align_x : Option Alignment) (width : Option Length)
  | row (children : List (Element M)) (spacing : ℚ)
  | container (content : Element M) (width : Option Length)
      (height : Option Length) (padding : Padding)
      (center_x : Option Length) (style : Option ContainerStyle)
  | scrollable (content : Element M) (height : Option Length)

/-- Modelled from the spec: widget attribute defaults of the `iced`
constructors (external to the sampled sources).  Their exact values
never matter to the claims, only that they are fixed. -/
def defaultTextSize : ℚ := 16

/-- Modelled from the spec: default button padding. -/
def defaultButtonPadding : Padding := Padding.uniform 5

/-- Modelled from the spec: default text-input padding. -/
def defaultTextInputPadding : Padding := Padding.uniform 5

/-- `iced::widget::text`. -/
def text {M : Type} (content : String) : Element M :=
  .text content Font.default defaultTextSize none

/-- `iced::widget::button`. -/
def button {M : Type} (content : Element M) : Element M :=
  .button content defaultButtonPadding none

/-- `iced::widget::text_input`. -/
def text_input {M : Type} (placeholder value : String) : Element M :=
  .text_input placeholder value Font.default defaultTextSize
    defaultTextInputPadding none

/-- The `column![...]` macro. -/
def column {M : Type} (children : List (Element M)) : Element M :=
  .column children 0 Padding.zero none none

/-- The `row![...]` macro. -/
def row {M : Type} (children : List (Element M)) : Element M :=
  .row children 0

/-- `iced::widget::container`. -/
def container {M : Type} (content : Element M) : Element M :=
  .container content none none Padding.zero none none

/-- `iced::widget::scrollable`. -/
def scrollable {M : Type} (content : Element M) : Element M :=
  .scrollable content none

/-- The `.font(...)` builder of `text` and `text_input`. -/
def Element.font {M : Type} : Element M → Font → Element M
  | .text c _ s col, f => .text c f s col
  | .text_input ph v _ s pad oi, f => .text_input ph v f s pad oi
  | e, _ => e

/-- The `.size(...)` builder of `text` and `text_input`. -/
def Element.size {M : Type} : Element M → ℚ → Element M
  | .text c f _ col, s => .text c f s col
  | .text_input ph v f _ pad oi, s => .text_input ph v f s pad oi
  | e, _ => e

/-- The `.color(...)` builder of `text`. -/
def Element.color {M α : Type} [IntoColor α] : Element M → α → Element M
  | .text c f s _, col => .text c f s (some (IntoColor.intoColor col))
  | e, _ => e

/-- The `.padding(...)` builder. -/
def Element.padding {M α : Type} [IntoPadding α] : Element M → α → Element M
  | .button c _ op, p => .button c (IntoPadding.intoPadding p) op
  | .text_input ph v f s _ oi, p =>
      .text_input ph v f s (IntoPadding.intoPadding p) oi
  | .column cs sp _ ax w, p => .column cs sp (IntoPadding.intoPadding p) ax w
  | .container c w h _ cx st, p =>
      .container c w h (IntoPadding.intoPadding p) cx st
  | e, _ => e

/-- The `.spacing(...)` builder of `column` and `row`. -/
def Element.spacing {M : Type} : Element M → ℚ → Element M
  | .column cs _ pad ax w, sp => .column cs sp pad ax w
  | .row cs _, sp => .row cs sp
  | e, _ => e

/-- The `.width(...)` builder. -/
def Element.width {M α : Type} [IntoLength α] : Element M → α → Element M
  | .column cs sp pad ax _, w =>
      .column cs sp pad ax (some (IntoLength.intoLength w))
  | .container c _ h pad cx st, w =>
      .container c (some (IntoLength.intoLength w)) h pad cx st
  | e, _ => e

/-- The `.height(...)` builder. -/
def Element.height {M α : Type} [IntoLength α] : Element M → α → Element M
  | .container c w _ pad cx st, h =>
      .container c w (some (IntoLength.intoLength h)) pad cx st
  | .scrollable c _, h => .scrollable c (some (IntoLength.intoLength h))
  | e, _ => e

/-- The `.center_x(...)` builder of `container`. -/
def Element.center_x {M α : Type} [IntoLength α] : Element M → α → Element M
  | .container c w h pad _ st, l =>
      .container c w h pad (some (IntoLength.intoLength l)) st
  | e, _ => e

/-- The `.align_x(...)` builder of `column`. -/
def Element.align_x {M : Type} : Element M → Alignment → Element M
  | .column cs sp pad _ w, a => .column cs sp pad (some a) w
  | e, _ => e

/-- The `.style(...)` builder of `container`; the source passes
closures that ignore their `_theme` argument, so the style value is
carried directly. -/
def Element.style {M : Type} : Element M → ContainerStyle → Element M
  | .container c w h pad cx _, st => .container c w h pad cx (some st)
  | e, _ => e

/-- The `.on_press(...)` builder of `button`. -/
def Element.on_press {M : Type} : Element M → M → Element M
  | .button c pad _, m => .button c pad (some m)
  | e, _ => e

/-- The `.on_input(...)` builder of `text_input`. -/
def Element.on_input {M : Type} : Element M → (String → M) → Element M
  | .text_input ph v f s pad _, g => .text_input ph v f s pad (some g)
  | e, _ => e

/-- `const CHINESE_FONT: Font = Font::with_name("Source Han Sans CN")`. -/
def CHINESE_FONT : Font := Font.withName ("Source Han Sans CN")

/-- `const DEFAULT_FONT: Font = Font::DEFAULT`. -/
def DEFAULT_FONT : Font := Font.default

/-- `const DEMO_SECTION_BACKGROUND: Color = Color::from_rgb(0.95, 0.95, 0.95)`. -/
def DEMO_SECTION_BACKGROUND : Color := Color.from_rgb 0.95 0.95 0.95

/-- `const DEMO_SECTION_BORDER_RADIUS: f32 = 8.0`. -/
def DEMO_SECTION_BORDER_RADIUS : ℚ := 8

/-- `const DEMO_SECTION_PADDING: u16 = 15`. -/
def DEMO_SECTION_PADDING : ℚ := 15

/-- `const MAX_CONTENT_WIDTH: f32 = 1200.0`. -/
def MAX_CONTENT_WIDTH : ℚ := 1200

/-- `const NAVIGATION_HEIGHT: f32 = 80.0`. -/
def NAVIGATION_HEIGHT : ℚ := 80

/-- `const CONTENT_PADDING: u16 = 40`. -/
def CONTENT_PADDING : ℚ := 40

/-- `ChineseFontDemo::new`. -/
def ChineseFontDemo.new : ChineseFontDemo × Task Message :=
  (ChineseFontDemo.default, Task.none)

/-- `ChineseFontDemo::update`: assigns the one state field the message
carries and returns `Task::none()`. -/
def ChineseFontDemo.update (self : ChineseFontDemo) (message : Message) :
    ChineseFontDemo × Task Message :=
  match message with
  | .sectionSelected s => ({ self with current_section := s }, Task.none)
  | .inputChanged t => ({ self with input_text := t }, Task.none)

/-- The `nav_button` helper; its `_current` argument is unused in the
source as well. -/
def nav_button (label : String) (s : Section) (_current : Section) :
    Element Message :=
  let btn := (button (text label |>.font CHINESE_FONT)).padding
    ((8, 16) : ℚ × ℚ)
  btn.on_press (Message.sectionSelected s)

/-- The `section_title` helper. -/
def section_title (title : String) : Element Message :=
  text title |>.font CHINESE_FONT |>.size 28

/-- The `demo_section` helper. -/
def demo_section (title : String) (content : Element Message) :
    Element Message :=
  column [
    text title |>.font CHINESE_FONT |>.size 18,
    (container content).padding DEMO_SECTION_PADDING |>.style
      { ContainerStyle.default with
        background := some (Background.color DEMO_SECTION_BACKGROUND),
        border := Border.rounded DEMO_SECTION_BORDER_RADIUS }
  ] |>.spacing 10

/-- `ChineseFontDemo::basic_text_view`. -/
def ChineseFontDemo.basic_text_view (_self : ChineseFontDemo) :
    Element Message :=
  column [
    (container (section_title ("基础中文文本显示"))).width Fill
      |>.center_x Fill,
    demo_section ("默认字体 vs 中文字体对比") (column [
      text ("使用默认字体：你好，世界！Hello World!")
        |>.font DEFAULT_FONT |>.size 18,
      text ("使用中文字体：你好，世界！Hello World!")
        |>.font CHINESE_FONT |>.size 18
    ]),
    demo_section ("常用中文文本") (column [
      text ("欢迎使用 iced GUI 框架") |>.font CHINESE_FONT |>.size 20,
      text ("这是一个现代化的跨平台 GUI 库") |>.font CHINESE_FONT |>.size 16,
      text ("支持 Windows、macOS 和 Linux") |>.font CHINESE_FONT |>.size 16
    ]),
    demo_section ("标点符号和特殊字符") (column [
      text ("中文标点：，。！？；：\"\"''（）【】")
        |>.font CHINESE_FONT |>.size 16,
      text ("数字和符号：0123456789 +-*/=<>@#$%^&")
        |>.font CHINESE_FONT |>.size 16
    ])
  ] |>.spacing 20 |>.padding ((20 : ℚ)) |>.align_x Center

/-- `ChineseFontDemo::mixed_language_view`. -/
def ChineseFontDemo.mixed_language_view (_self : ChineseFontDemo) :
    Element Message :=
  column [
    (container (section_title ("混合语言文本处理"))).width Fill
      |>.center_x Fill,
    demo_section ("中英文混合") (column [
      text ("Rust 是一种系统编程语言") |>.font CHINESE_FONT |>.size 18,
      text ("iced 是用 Rust 编写的 GUI 框架") |>.font CHINESE_FONT |>.size 18,
      text ("支持 cross-platform 跨平台开发") |>.font CHINESE_FONT |>.size 18
    ]),
    demo_section ("技术术语混合") (column [
      text ("API 接口设计") |>.font CHINESE_FONT |>.size 16,
      text ("JSON 数据格式") |>.font CHINESE_FONT |>.size 16,
      text ("HTTP 请求处理") |>.font CHINESE_FONT |>.size 16,
      text ("Database 数据库连接") |>.font CHINESE_FONT |>.size 16
    ]),
    demo_section ("代码和注释") (column [
      text ("// 这是一个中文注释") |>.font CHINESE_FONT |>.size 14,
      text ("fn main() \x7b // 主函数入口 \x7d") |>.font CHINESE_FONT |>.size 14,
      text ("let 变量名 = \"中文字符串\";") |>.font CHINESE_FONT |>.size 14
    ])
  ] |>.spacing 20 |>.padding ((20 : ℚ)) |>.align_x Center

/-- `ChineseFontDemo::font_sizes_view`. -/
def ChineseFontDemo.font_sizes_view (_self : ChineseFontDemo) :
    Element Message :=
  column [
    (container (section_title ("字体大小演示"))).width Fill
      |>.center_x Fill,
    demo_section ("不同字体大小") (column [
      text ("超大标题 - 32px") |>.font CHINESE_FONT |>.size 32,
      text ("大标题 - 24px") |>.font CHINESE_FONT |>.size 24,
      text ("中标题 - 20px") |>.font CHINESE_FONT |>.size 20,
      text ("正文 - 16px") |>.font CHINESE_FONT |>.size 16,
      text ("小字 - 14px") |>.font CHINESE_FONT |>.size 14,
      text ("注释 - 12px") |>.font CHINESE_FONT |>.size 12
    ]),
    demo_section ("层次结构示例") (column [
      text ("第一章：Rust 编程语言") |>.font CHINESE_FONT |>.size 24,
      text ("1.1 什么是 Rust") |>.font CHINESE_FONT |>.size 20,
      text ("Rust 是一种系统级编程语言，专注于安全、速度和并发。")
        |>.font CHINESE_FONT |>.size 16,
      text ("注：本章节介绍 Rust 的基本概念") |>.font CHINESE_FONT |>.size 12
    ])
  ] |>.spacing 20 |>.padding ((20 : ℚ)) |>.align_x Center

/-- `ChineseFontDemo::text_shaping_view`. -/
def ChineseFontDemo.text_shaping_view (_self : ChineseFontDemo) :
    Element Message :=
  column [
    (container (section_title ("文本整形和高级特性"))).width Fill
      |>.center_x Fill,
    demo_section ("复杂中文字符") (column [
      text ("繁体字：繁體中文顯示測試") |>.font CHINESE_FONT |>.size 18,
      text ("生僻字：龘靐齉爩麤鱻") |>.font CHINESE_FONT |>.size 18,
      text ("多音字：重庆重量，银行行走") |>.font CHINESE_FONT |>.size 18
    ]),
    demo_section ("文本对齐") (column [
      (container (text ("左对齐文本") |>.font CHINESE_FONT |>.size 16)).width
        Fill,
      (container (text ("居中对齐文本") |>.font CHINESE_FONT |>.size 16)).width
        Fill |>.center_x Fill
    ]),
    demo_section ("长文本处理") (column [
      text ("这是一段很长的中文文本，用来测试文本换行和显示效果。在实际应用中，我们经常需要处理这样的长文本内容，确保它们能够正确显示和换行。")
        |>.font CHINESE_FONT |>.size 16
    ])
  ] |>.spacing 20 |>.padding ((20 : ℚ)) |>.align_x Center

/-- `ChineseFontDemo::real_world_example_view`. -/
def ChineseFontDemo.real_world_example_view (_self : ChineseFontDemo) :
    Element Message :=
  column [
    (container (section_title ("实际应用示例"))).width Fill
      |>.center_x Fill,
    demo_section ("用户界面元素") (column [
      text ("用户登录") |>.font CHINESE_FONT |>.size 20,
      text ("用户名：") |>.font CHINESE_FONT |>.size 14,
      text ("密码：") |>.font CHINESE_FONT |>.size 14,
      row [
        (button (text ("登录") |>.font CHINESE_FONT)).padding ((10 : ℚ)),
        (button (text ("取消") |>.font CHINESE_FONT)).padding ((10 : ℚ))
      ] |>.spacing 10
    ]),
    demo_section ("菜单和导航") (column [
      text ("主菜单") |>.font CHINESE_FONT |>.size 18,
      text ("• 文件管理") |>.font CHINESE_FONT |>.size 14,
      text ("• 编辑工具") |>.font CHINESE_FONT |>.size 14,
      text ("• 视图选项") |>.font CHINESE_FONT |>.size 14,
      text ("• 帮助文档") |>.font CHINESE_FONT |>.size 14
    ]),
    demo_section ("状态和消息") (column [
      text ("✓ 文件保存成功") |>.font CHINESE_FONT |>.size 14,
      text ("⚠ 网络连接不稳定") |>.font CHINESE_FONT |>.size 14,
      text ("× 操作失败，请重试") |>.font CHINESE_FONT |>.size 14,
      text ("※ 正在处理，请稍候...") |>.font CHINESE_FONT |>.size 14
    ])
  ] |>.spacing 20 |>.padding ((20 : ℚ)) |>.align_x Center

/-- `ChineseFontDemo::interactive_test_view`: the only section view
that reads `self.input_text`. -/
def ChineseFontDemo.interactive_test_view (self : ChineseFontDemo) :
    Element Message :=
  column [
    (container (section_title ("交互式中文输入测试"))).width Fill
      |>.center_x Fill,
    demo_section ("实时输入测试") (column [
      text ("在下方输入框中输入中文文本，右侧将实时显示效果：")
        |>.font CHINESE_FONT |>.size 16,
      row [
        column [
          text ("输入区域") |>.font CHINESE_FONT |>.size 14,
          text_input ("请输入中文文本...") self.input_text
            |>.on_input Message.inputChanged |>.font CHINESE_FONT
            |>.size 16 |>.padding ((10 : ℚ)),
          text ("支持功能：") |>.font CHINESE_FONT |>.size 12,
          text ("• 中文输入法") |>.font CHINESE_FONT |>.size 12,
          text ("• 实时预览") |>.font CHINESE_FONT |>.size 12,
          text ("• 字体渲染") |>.font CHINESE_FONT |>.size 12
        ] |>.spacing 10 |>.width Fill,
        column [
          text ("显示效果") |>.font CHINESE_FONT |>.size 14,
          (container (if self.input_text.isEmpty then
              text ("输入内容将在此显示...") |>.font CHINESE_FONT |>.size 16
                |>.color ((0.6, 0.6, 0.6) : ℚ × ℚ × ℚ)
            else
              text self.input_text |>.font CHINESE_FONT |>.size 16)).padding
            ((15 : ℚ)) |>.width Fill |>.height ((100 : ℚ)) |>.style
            { ContainerStyle.default with
              background :=
                some (Background.color (Color.from_rgb 0.98 0.98 0.98)),
              border := Border.rounded ((5 : ℚ)) },
          text ("字符统计：") |>.font CHINESE_FONT |>.size 12,
          text ("字符数: " ++ toString self.input_text.length)
            |>.font CHINESE_FONT |>.size 12,
          text ("字节数: " ++ toString self.input_text.utf8ByteSize)
            |>.font CHINESE_FONT |>.size 12
        ] |>.spacing 10 |>.width Fill
      ] |>.spacing 20
    ]),
    demo_section ("多种字体大小预览")
      (if self.input_text.isEmpty then
        column [
          text ("输入文本后将显示不同字体大小的预览效果")
            |>.font CHINESE_FONT |>.size 14
            |>.color ((0.6, 0.6, 0.6) : ℚ × ℚ × ℚ)
        ]
      else
        column [
          text ("大标题 (24px): " ++ self.input_text)
            |>.font CHINESE_FONT |>.size 24,
          text ("正文 (16px): " ++ self.input_text)
            |>.font CHINESE_FONT |>.size 16,
          text ("小字 (12px): " ++ self.input_text)
            |>.font CHINESE_FONT |>.size 12
        ] |>.spacing 10),
    demo_section ("字体对比测试")
      (if self.input_text.isEmpty then
        column [
          text ("输入文本后将显示默认字体与中文字体的对比效果")
            |>.font CHINESE_FONT |>.size 14
            |>.color ((0.6, 0.6, 0.6) : ℚ × ℚ × ℚ)
        ]
      else
        column [
          text ("默认字体: " ++ self.input_text)
            |>.font DEFAULT_FONT |>.size 16,
          text ("中文字体: " ++ self.input_text)
            |>.font CHINESE_FONT |>.size 16
        ] |>.spacing 10),
    demo_section ("使用建议") (column [
      text ("测试建议：") |>.font CHINESE_FONT |>.size 16,
      text ("• 尝试输入简体中文：你好世界") |>.font CHINESE_FONT |>.size 14,
      text ("• 尝试输入繁体中文：繁體中文") |>.font CHINESE_FONT |>.size 14,
      text ("• 尝试输入中英混合：Hello 世界") |>.font CHINESE_FONT |>.size 14,
      text ("• 尝试输入标点符号：，。！？") |>.font CHINESE_FONT |>.size 14,
      text ("• 尝试输入数字：2025年") |>.font CHINESE_FONT |>.size 14,
      text ("• 尝试输入长文本测试换行效果") |>.font CHINESE_FONT |>.size 14
    ] |>.spacing 5)
  ] |>.spacing 20 |>.padding ((20 : ℚ)) |>.align_x Center

/-- `ChineseFontDemo::view`: builds the whole widget tree from the
current state.  It takes `&self` (shared, immutable access) in the
source; here it is a function of the state value alone. -/
def ChineseFontDemo.view (self : ChineseFontDemo) : Element Message :=
  let navigation :=
    (container (row [
      nav_button ("基础文本") Section.basicText self.current_section,
      nav_button ("混合语言") Section.mixedLanguage self.current_section,
      nav_button ("字体大小") Section.fontSizes self.current_section,
      nav_button ("文本整形") Section.textShaping self.current_section,
      nav_button ("实际应用") Section.realWorldExample self.current_section,
      nav_button ("交互测试") Section.interactiveTest self.current_section
    ] |>.spacing 10)).width (Length.fixed (min MAX_CONTENT_WIDTH 1000))
      |>.padding ((20, 0) : ℚ × ℚ)
  let content :=
    match self.current_section with
    | .basicText => self.basic_text_view
    | .mixedLanguage => self.mixed_language_view
    | .fontSizes => self.font_sizes_view
    | .textShaping => self.text_shaping_view
    | .realWorldExample => self.real_world_example_view
    | .interactiveTest => self.interactive_test_view
  let content_container :=
    (container ((container (scrollable content |>.height Fill)).width
        (Length.fixed MAX_CONTENT_WIDTH) |>.center_x Fill
        |>.padding ((0, CONTENT_PADDING) : ℚ × ℚ))).width Fill
      |>.center_x Fill
  let main_layout :=
    column [
      (container ((container navigation).center_x Fill)).width Fill
        |>.height (Length.fixed NAVIGATION_HEIGHT)
        |>.style { ContainerStyle.default with
          background :=
            some (Background.color (Color.from_rgb 0.98 0.98 0.98)),
          border := Border.rounded ((0 : ℚ)) },
      content_container
    ]
  (container main_layout).width Fill |>.height Fill |>.center_x Fill

/-- Modelled from the spec: a widget-tree node as the runtime's
reconciliation sees it (spec sections 3 and 4.3) — a widget kind tag,
its leaf parameter values, and the ordered children.  The runtime's
`user_interface` module is declared in `src/runtime/src/lib.rs` but its
body is not among the sampled sources. -/
inductive WidgetT where
  | node (kind : ℕ) (params : ℕ) (children : List WidgetT)

/-- Modelled from the spec: a persistent state node (spec section 3) —
the kind tag it was created for, an opaque identity tag (spec section
8: "tagging state with an opaque id"), its mutable interaction state,
and the ordered children. -/
inductive StateT where
  | node (kind : ℕ) (id : ℕ) (state : ℕ) (children : List StateT)

/-- Modelled from the spec: the default (reinitialized) interaction
state. -/
def defaultState : ℕ := 0

mutual

/-- Modelled from the spec (section 4.3): the state subtree freshly
initialized for a widget subtree — default state everywhere; fresh
nodes carry the default identity tag. -/
def freshNode : WidgetT → StateT
  | .node k _ cs => .node k 0 defaultState (freshChildren cs)

/-- Fresh state nodes for a list of widget children, in order. -/
def freshChildren : List WidgetT → List StateT
  | [] => []
  | w :: ws => freshNode w :: freshChildren ws

end

mutual

/-- Modelled from the spec (section 4.3): positional reconciliation —
"traverse the new widget tree and previous state tree in lock-step by
sibling position; for each position, if the widget kind matches, reuse
and update the existing state node in place; otherwise drop the old
state subtree and initialize a new one". -/
def reconcile : WidgetT → StateT → StateT
  | .node kw p cs, .node ks id st ss =>
    if kw = ks then .node ks id st (reconcileChildren cs ss)
    else freshNode (.node kw p cs)

/-- Lock-step reconciliation of sibling lists: positions past the end
of the old state list get fresh state, old state past the end of the
new widget list is dropped (spec section 3: "destroyed when no longer
matched"). -/
def reconcileChildren : List WidgetT → List StateT → List StateT
  | [], _ => []
  | w :: ws, [] => freshNode w :: reconcileChildren ws []
  | w :: ws, s :: ss => reconcile w s :: reconcileChildren ws ss

end

mutual

/-- Two widget trees have the same structure — the same kinds in the
same sibling order — and may differ only in leaf parameter values. -/
def sameShape : WidgetT → WidgetT → Bool
  | .node k _ cs, .node k2 _ cs2 => k == k2 && sameShapeChildren cs cs2

/-- Structural equality of sibling lists, positionally. -/
def sameShapeChildren : List WidgetT → List WidgetT → Bool
  | [], [] => true
  | w :: ws, w2 :: ws2 => sameShape w w2 && sameShapeChildren ws ws2
  | _, _ => false

end

mutual

/-- A persistent state tree is built against a widget tree: kind tags
and sibling arity agree at every position. -/
def conforms : StateT → WidgetT → Bool
  | .node ks _ _ ss, .node kw _ cs => ks == kw && conformsChildren ss cs

/-- Positional conformance of state children to widget children. -/
def conformsChildren : List StateT → List WidgetT → Bool
  | [], [] => true
  | s :: ss, w :: ws => conforms s w && conformsChildren ss ws
  | _, _ => false

end

mutual

/-- Every state value in the tree is the default one. -/
def allDefault : StateT → Bool
  | .node _ _ st ss => st == defaultState && allDefaultChildren ss

/-- `allDefault` over a sibling list. -/
def allDefaultChildren : List StateT → Bool
  | [] => true
  | s :: ss => allDefault s && allDefaultChildren ss

end

/-- Modelled from the spec: the runtime's presentation bookkeeping that
reconciliation touches — at most one focused target (spec section 3:
"Exactly one widget node is focused at a time"), addressed by its path
of sibling positions. -/
structure RuntimeState where
  focus : Option (List ℕ)
deriving DecidableEq

/-- Modelled from the spec: whether a path of sibling positions still
addresses a node of the tree. -/
def pathPresent : WidgetT → List ℕ → Bool
  | _, [] => true
  | .node _ _ cs, i :: p =>
    match cs[i]? with
    | some c => pathPresent c p
    | none => false

/-- Modelled from the spec (sections 4.3 and 7): the runtime accepting
a new widget tree.  A focus target no longer present in the tree is
cleared silently; otherwise the state is kept.  The operation is total:
its type has no error outcome, matching "there are no fatal error
conditions in this component". -/
def acceptTree (rs : RuntimeState) (t : WidgetT) : RuntimeState :=
  match rs.focus with
  | none => rs
  | some p => if pathPresent t p then rs else { rs with focus := none }

/-! Helper lemmas (shared; not claim theorems). -/

/-- The cast `i32 as f32` is exact on magnitudes up to `2 ^ 24`: they
fit in the 24-bit binary32 significand. -/
theorem i32AsF32_exact (w : ℤ) (h : w.natAbs ≤ 2 ^ 24) : i32AsF32 w = w := by
  unfold i32AsF32 f32RoundNat
  split <;> omega

mutual

/-- Freshly initialized state trees hold the default state
everywhere. -/
theorem freshNode_allDefault (w : WidgetT) :
    allDefault (freshNode w) = true := by
  cases w with
  | node k p cs =>
    simp [freshNode, allDefault, defaultState, freshChildren_allDefault cs]

/-- `freshNode_allDefault` over a sibling list. -/
theorem freshChildren_allDefault (ws : List WidgetT) :
    allDefaultChildren (freshChildren ws) = true := by
  cases ws with
  | nil => rfl
  | cons w ws2 =>
    simp [freshChildren, allDefaultChildren, freshNode_allDefault w,
      freshChildren_allDefault ws2]

end

mutual

/-- Conformance transports along structural equality of widget trees:
state built for `t1` also conforms to any `t2` of the same shape. -/
theorem conforms_trans (s : StateT) (t1 t2 : WidgetT)
    (h1 : conforms s t1 = true) (h2 : sameShape t1 t2 = true) :
    conforms s t2 = true := by
  cases s with
  | node ks id st ss =>
    cases t1 with
    | node k1 p1 cs1 =>
      cases t2 with
      | node k2 p2 cs2 =>
        simp [conforms, sameShape, Bool.and_eq_true] at h1 h2 ⊢
        exact ⟨h1.1.trans h2.1, conforms_trans_children ss cs1 cs2 h1.2 h2.2⟩

/-- `conforms_trans` over sibling lists. -/
theorem conforms_trans_children (ss : List StateT) (ws1 ws2 : List WidgetT)
    (h1 : conformsChildren ss ws1 = true)
    (h2 : sameShapeChildren ws1 ws2 = true) :
    conformsChildren ss ws2 = true := by
  cases ss with
  | nil =>
    cases ws1 <;> cases ws2 <;>
      simp_all [conformsChildren, sameShapeChildren]
  | cons s ss2 =>
    cases ws1 with
    | nil => simp [conformsChildren] at h1
    | cons w1 ws1t =>
      cases ws2 with
      | nil => simp [sameShapeChildren] at h2
      | cons w2 ws2t =>
        simp [conformsChildren, sameShapeChildren, Bool.and_eq_true]
          at h1 h2 ⊢
        exact ⟨conforms_trans s w1 w2 h1.1 h2.1,
          conforms_trans_children ss2 ws1t ws2t h1.2 h2.2⟩

end

mutual

/-- Reconciling a widget tree against a state tree that conforms to it
returns the state tree itself: every node (id and state included) is
reused. -/
theorem reconcile_reuse (w : WidgetT) (s : StateT)
    (h : conforms s w = true) : reconcile w s = s := by
  cases w with
  | node kw p cs =>
    cases s with
    | node ks id st ss =>
      simp [conforms, Bool.and_eq_true] at h
      simp [reconcile, h.1, reconcile_reuse_children cs ss h.2]

/-- `reconcile_reuse` over sibling lists. -/
theorem reconcile_reuse_children (ws : List WidgetT) (ss : List StateT)
    (h : conformsChildren ss ws = true) : reconcileChildren ws ss = ss := by
  cases ws with
  | nil =>
    cases ss with
    | nil => rfl
    | cons s ss2 => simp [conformsChildren] at h
  | cons w ws2 =>
    cases ss with
    | nil => simp [conformsChildren] at h
    | cons s ss2 =>
      simp [conformsChildren, Bool.and_eq_true] at h
      simp [reconcileChildren, reconcile_reuse w s h.1,
        reconcile_reuse_children ws2 ss2 h.2]

end

/-! The claims. -/

/-- C1: Positional reconciliation.  Reconciling a new tree `t2` that
has the same widget kinds in the same sibling order as `t1` (differing
only in leaf parameter values) against a persistent state tree built
for `t1` returns that state tree unchanged — every state node, with
its opaque id and state, is reused.  At a position whose widget kind
differs, the old state subtree is discarded and the result is the
freshly initialized subtree, whose state values are all default. -/
theorem positional_reconciliation :
    (∀ (t1 t2 : WidgetT) (s : StateT), conforms s t1 = true →
        sameShape t1 t2 = true → reconcile t2 s = s) ∧
    (∀ (k p : ℕ) (cs : List WidgetT) (k2 id st : ℕ) (ss : List StateT),
        k ≠ k2 →
        reconcile (.node k p cs) (.node k2 id st ss)
          = freshNode (.node k p cs)) ∧
    (∀ w : WidgetT, allDefault (freshNode w) = true) := by
  refine ⟨fun t1 t2 s h1 h2 =>
    reconcile_reuse t2 s (conforms_trans s t1 t2 h1 h2), ?_,
    freshNode_allDefault⟩
  intro k p cs k2 id st ss h
  simp [reconcile, h]

/-- Witness for C1 at concrete trees: a two-node tree whose parameters
change keeps its state tree; a root whose kind changes from 1 to 3 is
reinitialized. -/
theorem positional_reconciliation_witness :
    conforms (.node 1 8 2 [.node 2 4 6 []]) (.node 1 3 [.node 2 5 []])
        = true ∧
    sameShape (.node 1 3 [.node 2 5 []]) (.node 1 7 [.node 2 9 []])
        = true ∧
    reconcile (.node 1 7 [.node 2 9 []]) (.node 1 8 2 [.node 2 4 6 []])
        = .node 1 8 2 [.node 2 4 6 []] ∧
    reconcile (.node 3 7 []) (.node 1 8 2 [.node 2 4 6 []])
        = freshNode (.node 3 7 []) :=
  ⟨by decide, by decide,
    positional_reconciliation.1 (.node 1 3 [.node 2 5 []])
      (.node 1 7 [.node 2 9 []]) (.node 1 8 2 [.node 2 4 6 []])
      (by decide) (by decide),
    positional_reconciliation.2.1 3 7 [] 1 8 2 [.node 2 4 6 []]
      (by decide)⟩

/-- C2: `with_color`, `with_radius` and `with_width` are builders —
each returns a new `Border` whose named field is the converted
argument while the other two fields are `b`'s.  The source takes
`self` by value and builds a new struct, so the original is never
mutated; in this pure embedding that is reflected by the functions
being value-to-value. -/
theorem border_builders_functional {α β γ : Type} [IntoColor α]
    [IntoRadius β] [IntoPixels γ] (b : Border) (c : α) (r : β) (w : γ) :
    (b.with_color c).color = IntoColor.intoColor c ∧
    (b.with_color c).width = b.width ∧
    (b.with_color c).radius = b.radius ∧
    (b.with_radius r).radius = IntoRadius.intoRadius r ∧
    (b.with_radius r).color = b.color ∧
    (b.with_radius r).width = b.width ∧
    (b.with_width w).width = (IntoPixels.intoPixels w).v ∧
    (b.with_width w).color = b.color ∧
    (b.with_width w).radius = b.radius :=
  ⟨rfl, rfl, rfl, rfl, rfl, rfl, rfl, rfl, rfl⟩

/-- C3: a `Radius` is exactly its four corner values in the order
top-left, top-right, bottom-right, bottom-left (last conjunct: the
quadruple determines the value), `From<f32>` broadcasts the scalar to
all four corners, and the `u8`, `u16` and `i32` conversions factor
through the f32 conversion applied to the widened scalar, exactly as
in the source. -/
theorem radius_broadcast :
    (∀ w : ℚ, Radius.fromF32 w = ⟨w, w, w, w⟩) ∧
    (∀ w : Fin 256, Radius.fromU8 w = Radius.fromF32 (f32FromU8 w)) ∧
    (∀ w : Fin 65536, Radius.fromU16 w = Radius.fromF32 (f32FromU16 w)) ∧
    (∀ w : ℤ, Radius.fromI32 w = Radius.fromF32 (f32FromI32 w)) ∧
    (∀ r s : Radius, r.toArray = s.toArray → r = s) := by
  refine ⟨fun w => rfl, fun w => rfl, fun w => rfl, fun w => rfl, ?_⟩
  intro r s h
  cases r
  cases s
  simp only [Radius.toArray, Prod.mk.injEq] at h
  obtain ⟨h1, h2, h3, h4⟩ := h
  simp [h1, h2, h3, h4]

/-- Witness for C3's extensionality conjunct at a concrete radius. -/
theorem radius_broadcast_witness :
    Radius.default.toArray = Radius.default.toArray ∧
    Radius.default = Radius.default :=
  ⟨rfl, radius_broadcast.2.2.2.2 Radius.default Radius.default rfl⟩

/-- Counterexample to C4 as stated: the `i32` conversion is not
value-preserving at `w = 16777217 = 2 ^ 24 + 1`, the smallest positive
integer not representable in binary32 — Rust's `w as f32` rounds it to
`16777216`, so the stored corner differs from the mathematical value
of `w`. -/
theorem radius_fromI32_not_value_preserving :
    (Radius.fromI32 16777217).topLeft ≠ ((16777217 : ℤ) : ℚ) := by decide

/-- C4 (amended): all scalar conversions into `Radius` are total (their
types are total functions, with no error outcome).  The `u8` and `u16`
conversions are exact numeric widenings: every corner equals the
mathematical value of `w`.  The `i32` conversion is exact exactly on
the significand range: for `|w| ≤ 2 ^ 24` every corner equals the
mathematical value of `w`; beyond it `w as f32` rounds to the nearest
binary32 value (`radius_fromI32_not_value_preserving`). -/
theorem radius_scalar_conversions_amended :
    (∀ w : Fin 256,
      (Radius.fromU8 w).topLeft = (w.val : ℚ) ∧
      (Radius.fromU8 w).topRight = (w.val : ℚ) ∧
      (Radius.fromU8 w).bottomRight = (w.val : ℚ) ∧
      (Radius.fromU8 w).bottomLeft = (w.val : ℚ)) ∧
    (∀ w : Fin 65536,
      (Radius.fromU16 w).topLeft = (w.val : ℚ) ∧
      (Radius.fromU16 w).topRight = (w.val : ℚ) ∧
      (Radius.fromU16 w).bottomRight = (w.val : ℚ) ∧
      (Radius.fromU16 w).bottomLeft = (w.val : ℚ)) ∧
    (∀ w : ℤ, w.natAbs ≤ 2 ^ 24 →
      (Radius.fromI32 w).topLeft = (w : ℚ) ∧
      (Radius.fromI32 w).topRight = (w : ℚ) ∧
      (Radius.fromI32 w).bottomRight = (w : ℚ) ∧
      (Radius.fromI32 w).bottomLeft = (w : ℚ)) := by
  refine ⟨fun w => ⟨rfl, rfl, rfl, rfl⟩, fun w => ⟨rfl, rfl, rfl, rfl⟩, ?_⟩
  intro w h
  have he : f32FromI32 w = (w : ℚ) := by
    unfold f32FromI32
    rw [i32AsF32_exact w h]
  simp [Radius.fromI32, Radius.fromF32, he]

/-- Witness for C4 (amended) at the largest exactly-converted positive
`i32`. -/
theorem radius_scalar_conversions_amended_witness :
    (16777216 : ℤ).natAbs ≤ 2 ^ 24 ∧
    (Radius.fromI32 16777216).topLeft = ((16777216 : ℤ) : ℚ) :=
  ⟨by decide,
    (radius_scalar_conversions_amended.2.2 16777216 (by decide)).1⟩

/-- C5: accepting a new tree with a focus target that is no longer
present clears the focus (first conjunct) and otherwise leaves the
state untouched (second); in every case the outcome is one of those
two states (third) — the operation is total and has no error
outcome. -/
theorem runtime_clears_invalid_focus :
    (∀ (rs : RuntimeState) (t : WidgetT) (p : List ℕ), rs.focus = some p →
        pathPresent t p = false → (acceptTree rs t).focus = none) ∧
    (∀ (rs : RuntimeState) (t : WidgetT) (p : List ℕ), rs.focus = some p →
        pathPresent t p = true → acceptTree rs t = rs) ∧
    (∀ (rs : RuntimeState) (t : WidgetT),
        acceptTree rs t = rs ∨ acceptTree rs t = { focus := none }) := by
  refine ⟨?_, ?_, ?_⟩
  · intro rs t p hf hnp
    simp [acceptTree, hf, hnp]
  · intro rs t p hf hp
    simp [acceptTree, hf, hp]
  · intro rs t
    cases hrs : rs.focus with
    | none =>
      left
      simp [acceptTree, hrs]
    | some p =>
      by_cases hp : pathPresent t p = true
      · left
        simp [acceptTree, hrs, hp]
      · right
        simp [acceptTree, hrs, hp]

/-- Witness for C5: a focus on child 0 of a childless root is invalid
and gets cleared. -/
theorem runtime_clears_invalid_focus_witness :
    (⟨some [0]⟩ : RuntimeState).focus = some [0] ∧
    pathPresent (.node 1 0 []) [0] = false ∧
    (acceptTree ⟨some [0]⟩ (.node 1 0 [])).focus = none :=
  ⟨rfl, by decide,
    runtime_clears_invalid_focus.1 ⟨some [0]⟩ (.node 1 0 []) [0] rfl
      (by decide)⟩

/-- C6: `view` is a pure, deterministic function of the application
state: it observes only the state fields (`current_section`,
`input_text`), so states agreeing on them get equal widget trees.  The
source takes `&self` (shared, immutable access) and only `update`
mutates state; in this embedding that contract is the type of `view`
itself, a value-to-value function returning only the tree. -/
theorem view_pure (s t : ChineseFontDemo)
    (h1 : s.current_section = t.current_section)
    (h2 : s.input_text = t.input_text) :
    ChineseFontDemo.view s = ChineseFontDemo.view t := by
  have he : s = t := by
    cases s
    cases t
    simp_all
  rw [he]

/-- Witness for C6: two runs of `view` on the default state produce
the same tree. -/
theorem view_pure_witness :
    (ChineseFontDemo.default.current_section
        = ChineseFontDemo.default.current_section) ∧
    (ChineseFontDemo.default.input_text
        = ChineseFontDemo.default.input_text) ∧
    ChineseFontDemo.view ChineseFontDemo.default
      = ChineseFontDemo.view ChineseFontDemo.default :=
  ⟨rfl, rfl,
    view_pure ChineseFontDemo.default ChineseFontDemo.default rfl rfl⟩

/-- C7: `Radius` and the four-element corner array convert back and
forth without loss, in both directions. -/
theorem radius_array_roundtrip :
    (∀ a : ℚ × ℚ × ℚ × ℚ, (Radius.fromArray a).toArray = a) ∧
    (∀ r : Radius, Radius.fromArray r.toArray = r) :=
  ⟨fun _ => rfl, fun _ => rfl⟩

/-- C8: `Border::rounded(r)` equals `Border::default().with_radius(r)`
for every value convertible into a `Radius`, and the result carries
the default color, the default width `0.0`, and `r` converted to
`Radius` — exactly the doc-test of the source
(`assert_eq!(Border::rounded(10), Border::default().with_radius(10))`). -/
theorem border_rounded_is_default_with_radius {α : Type} [IntoRadius α]
    (r : α) :
    Border.rounded r = Border.default.with_radius r ∧
    (Border.rounded r).color = Color.default ∧
    (Border.rounded r).width = 0 ∧
    (Border.rounded r).radius = IntoRadius.intoRadius r :=
  ⟨rfl, rfl, rfl, rfl⟩

/-- C9: `update` sets exactly the one state field its message carries —
`SectionSelected` writes `current_section` and keeps `input_text`,
`InputChanged` writes `input_text` and keeps `current_section` — and
both branches return `Task::none()`. -/
theorem update_sets_one_field (s : ChineseFontDemo) (x : Section)
    (t : String) :
    ChineseFontDemo.update s (.sectionSelected x)
        = ({ s with current_section := x }, Task.none) ∧
    (ChineseFontDemo.update s (.sectionSelected x)).1.input_text
        = s.input_text ∧
    ChineseFontDemo.update s (.inputChanged t)
        = ({ s with input_text := t }, Task.none) ∧
    (ChineseFontDemo.update s (.inputChanged t)).1.current_section
        = s.current_section :=
  ⟨rfl, rfl, rfl, rfl⟩

end Iced
